import Mathlib

/-!
Shallow embedding of `.github/scripts/manage_databricks_job.py`, the
Databricks job-management script: load a job configuration, look the job
name up in the registry listing, then create, update or skip, and format
the job / run URLs.

External effects (the `databricks` CLI bridge invocations, the filesystem)
are made explicit: each bridge call's possible outcomes become an inductive
parameter, `sys.exit(1)` becomes the `Outcome.sysExit` result, and the
registry calls actually issued are collected in a trace.
-/

namespace ManageDatabricksJob

/-- Result of a Python code path: either a normal return of a value, or
process termination via `sys.exit(1)` (which `run_command` performs when the
bridge command exits non-zero; `SystemExit` derives from `BaseException`, so
an `except Exception` clause does not catch it). -/
inductive Outcome (α : Type) where
  | ok (a : α)
  | sysExit
deriving DecidableEq, Repr

/-- One entry of the JSON listing printed by `databricks jobs list --output
JSON`: `job.get("settings", {}).get("name")` (absent when `settings` or
`name` is missing, or not a string) and `job.get("job_id")` (absent when the
field is missing). -/
structure JobEntry where
  name : Option String
  job_id : Option Nat
deriving DecidableEq, Repr

/-- Possible outcomes of the `databricks jobs list --output JSON` bridge
invocation inside `get_existing_job_id`:
the command exits non-zero (so `run_command` prints the error and calls
`sys.exit(1)`), the command succeeds but its output is not parseable as the
expected JSON shape (`json.loads` or `.get` raises an `Exception`), or it
yields a list of job entries (an empty output yields the empty list, as does
a parsed object without a `"jobs"` key). -/
inductive ListOutcome where
  | exitNonZero
  | badOutput
  | jobs (l : List JobEntry)
deriving DecidableEq, Repr

/-- The loop body of `get_existing_job_id`: walk the listing in order and
return `job.get("job_id")` of the first entry whose `settings.name` equals
`job_name` by exact string comparison; `None` when no entry matches. -/
def find_job_id : List JobEntry → String → Option Nat
  | [], _ => none
  | j :: rest, job_name =>
    if j.name = some job_name then j.job_id else find_job_id rest job_name

/-- `get_existing_job_id(job_name)`. A non-zero exit of the list command is
not caught by the `except Exception` clause (it is a `SystemExit`), so the
process terminates; an unparseable output is caught, a warning is printed
and `None` is returned; otherwise the first name match's `job_id` is
returned. -/
def get_existing_job_id : ListOutcome → String → Outcome (Option Nat)
  | ListOutcome.exitNonZero, _ => Outcome.sysExit
  | ListOutcome.badOutput, _ => Outcome.ok none
  | ListOutcome.jobs l, job_name => Outcome.ok (find_job_id l job_name)

/-- Possible outcomes of the `databricks jobs create` bridge invocation:
non-zero exit (`run_command` terminates the process), zero exit with output
that is not parseable as JSON (`json.JSONDecodeError`), or parsed JSON whose
`job_id` field is `parsed oid` (absent field gives `parsed none`). -/
inductive CreateOutcome where
  | exitNonZero
  | badOutput
  | parsed (job_id : Option Nat)
deriving DecidableEq, Repr

/-- `create_job(config_path)`: abort on non-zero exit; on unparseable output
print a message and return `None`; otherwise return the parsed `job_id`. -/
def create_job : CreateOutcome → Outcome (Option Nat)
  | CreateOutcome.exitNonZero => Outcome.sysExit
  | CreateOutcome.badOutput => Outcome.ok none
  | CreateOutcome.parsed oid => Outcome.ok oid

/-- Python `try ... finally` over an explicit state `σ`: the body runs
first, and the finalizer runs on the resulting state whether the body
returned normally or raised (`sys.exit` raises `SystemExit`, which unwinds
through `finally` blocks before the process terminates). -/
def tryFinally {α σ : Type} (body : σ → Outcome α × σ) (cleanup : σ → σ)
    (s : σ) : Outcome α × σ :=
  let r := body s
  (r.1, cleanup r.2)

/-- `update_job(job_id, config)`. The state is whether the scratch file
`temp_job_config.json` exists. The config is dumped to the scratch file,
then `databricks jobs reset` runs inside `try`, and the `finally` block
removes the scratch file when it exists. `cmdFails` is whether the bridge
reset command exits non-zero (in which case `run_command` raises
`SystemExit`). On success the same `job_id` is returned. -/
def update_job (cmdFails : Bool) (job_id : Nat) (tempExists0 : Bool) :
    Outcome Nat × Bool :=
  let afterWrite : Bool := true
  tryFinally
    (fun s => if cmdFails then (Outcome.sysExit, s) else (Outcome.ok job_id, s))
    (fun s => if s then false else s)
    afterWrite

/-- The loaded job configuration, as far as `manage_job` inspects it:
`config.get("name")`, which is absent when the key is missing. -/
structure Config where
  name : Option String
deriving DecidableEq, Repr

/-- Outcomes of the bridge invocations a single `manage_job` call may
perform. -/
structure Env where
  listing : ListOutcome
  createResult : CreateOutcome
  updateFails : Bool
deriving DecidableEq, Repr

/-- A registry call issued through the bridge, recorded in the trace. -/
inductive Call where
  | list
  | create
  | update (job_id : Nat)
  | run (job_id : Nat)
deriving DecidableEq, Repr

/-- The `else` branch of `manage_job` ("Job does not exist, creating new
job"): invoke `create_job` and propagate its result; the trace so far is the
lookup's list call followed by the create call. -/
def manage_job_create_path (env : Env) : Outcome (Option Nat) × List Call :=
  match create_job env.createResult with
  | Outcome.sysExit => (Outcome.sysExit, [Call.list, Call.create])
  | Outcome.ok oid => (Outcome.ok oid, [Call.list, Call.create])

/-- `manage_job(config_path, force_update)` after the configuration has been
loaded. `if not job_name:` is Python truthiness: a missing or empty name
exits before any bridge call. The lookup issues the list call; then
`if existing_job_id:` is again truthiness, so `None` and `0` both fall to
the create path. With a truthy existing id, `force_update` selects between
`update_job` and skipping. The second component is the trace of registry
calls issued. -/
def manage_job (cfg : Config) (env : Env) (force_update : Bool) :
    Outcome (Option Nat) × List Call :=
  match cfg.name with
  | none => (Outcome.sysExit, [])
  | some job_name =>
    if job_name = "" then (Outcome.sysExit, [])
    else
      match get_existing_job_id env.listing job_name with
      | Outcome.sysExit => (Outcome.sysExit, [Call.list])
      | Outcome.ok existing =>
        match existing with
        | some id =>
          if id ≠ 0 then
            if force_update then
              match update_job env.updateFails id false with
              | (Outcome.ok jid, _) =>
                (Outcome.ok (some jid), [Call.list, Call.update id])
              | (Outcome.sysExit, _) =>
                (Outcome.sysExit, [Call.list, Call.update id])
            else (Outcome.ok (some id), [Call.list])
          else manage_job_create_path env
        | none => manage_job_create_path env

/-- Python's `str.rstrip("/")`: remove every trailing `/` character. -/
def rstripSlashes (s : String) : String :=
  String.mk ((s.data.reverse.dropWhile (fun c => c = '/')).reverse)

/-- `get_job_url(job_id)` with the `DATABRICKS_HOST` value passed
explicitly: when both the host and the job id are truthy (non-empty string,
non-`None` and non-zero id), return the host with trailing slashes removed
followed by `/#job/` and the id; otherwise `None`. -/
def get_job_url (databricks_host : String) (job_id : Option Nat) :
    Option String :=
  match job_id with
  | none => none
  | some id =>
    if databricks_host ≠ "" ∧ id ≠ 0 then
      some (rstripSlashes databricks_host ++ "/#job/" ++ toString id)
    else none

/-- The run URL printed by `main` after a run is triggered:
`f"{job_url}/runs/{run_id}"`, where a missing `run_id` renders as the
string `None`. -/
def run_url (job_url : String) (run_id : Option Nat) : String :=
  job_url ++ "/runs/" ++ (match run_id with | some r => toString r | none => "None")

/-- When no entry of the listing carries the wanted name, the lookup loop
returns `None`. -/
theorem find_job_id_eq_none_of_no_match (l : List JobEntry) (n : String)
    (h : ∀ j ∈ l, j.name ≠ some n) : find_job_id l n = none := by
  induction l with
  | nil => rfl
  | cons j rest ih =>
    have hj : j.name ≠ some n := h j (List.mem_cons_self j rest)
    have hrest : ∀ j' ∈ rest, j'.name ≠ some n := fun j' hj' =>
      h j' (List.mem_cons_of_mem j hj')
    simp only [find_job_id, if_neg hj]
    exact ih hrest

/-- The lookup loop returns the `job_id` of the first entry whose name
matches, whatever comes after it. -/
theorem find_job_id_append_first (l1 : List JobEntry) (j : JobEntry)
    (l2 : List JobEntry) (n : String) (hj : j.name = some n)
    (h1 : ∀ j' ∈ l1, j'.name ≠ some n) :
    find_job_id (l1 ++ j :: l2) n = j.job_id := by
  induction l1 with
  | nil => simp [find_job_id, hj]
  | cons k rest ih =>
    have hk : k.name ≠ some n := h1 k (List.mem_cons_self k rest)
    have hrest : ∀ j' ∈ rest, j'.name ≠ some n := fun j' hj' =>
      h1 j' (List.mem_cons_of_mem k hj')
    simp only [List.cons_append, find_job_id, if_neg hk]
    exact ih hrest

/-- The create path issues exactly the list call then the create call,
whether the create command succeeds, fails or returns unparseable output. -/
theorem manage_job_create_path_trace (env : Env) :
    (manage_job_create_path env).2 = [Call.list, Call.create] := by
  cases h : env.createResult <;> simp [manage_job_create_path, create_job, h]

/-- Claim C1, counterexample: the claim as stated is false when the bridge
list command exits non-zero. With a valid name and `databricks jobs list`
exiting non-zero, `run_command` calls `sys.exit(1)` and `SystemExit` is not
caught by `get_existing_job_id`'s `except Exception`, so reconciliation
aborts and no create call is made. -/
theorem C1_counterexample :
    (manage_job ⟨some "my-job"⟩
      ⟨ListOutcome.exitNonZero, CreateOutcome.parsed (some 1), false⟩
      false).1 = Outcome.sysExit ∧
    Call.create ∉
      (manage_job ⟨some "my-job"⟩
        ⟨ListOutcome.exitNonZero, CreateOutcome.parsed (some 1), false⟩
        false).2 := by
  constructor
  · rfl
  · decide

/-- Claim C1 (amended): for every definition with a valid name, if the
listing's output is not parseable (any `Exception` inside
`get_existing_job_id`), reconciliation does not abort: it proceeds exactly
as if the registry listed no jobs at all, taking the create path, after
emitting a warning; when the bridge list command itself exits non-zero the
process instead terminates. -/
theorem C1_unparseable_listing_fails_open (cfg : Config) (env : Env)
    (n : String) (force : Bool) (hn : cfg.name = some n) (hne : n ≠ "")
    (hl : env.listing = ListOutcome.badOutput) :
    manage_job cfg env force =
      manage_job cfg ⟨ListOutcome.jobs [], env.createResult, env.updateFails⟩
        force ∧
    (manage_job cfg env force).2 = [Call.list, Call.create] := by
  constructor
  · simp only [manage_job, hn, if_neg hne, hl, get_existing_job_id,
      find_job_id]
    cases h : env.createResult <;>
      simp [manage_job_create_path, create_job, h]
  · simp only [manage_job, hn, if_neg hne, hl, get_existing_job_id]
    exact manage_job_create_path_trace env

/-- Claim C1, witness for the amended theorem at a concrete input. -/
theorem C1_unparseable_listing_fails_open_witness :
    manage_job ⟨some "my-job"⟩
        ⟨ListOutcome.badOutput, CreateOutcome.parsed (some 7), false⟩ true =
      manage_job ⟨some "my-job"⟩
        ⟨ListOutcome.jobs [], CreateOutcome.parsed (some 7), false⟩ true ∧
    (manage_job ⟨some "my-job"⟩
        ⟨ListOutcome.badOutput, CreateOutcome.parsed (some 7), false⟩
        true).2 = [Call.list, Call.create] :=
  C1_unparseable_listing_fails_open ⟨some "my-job"⟩
    ⟨ListOutcome.badOutput, CreateOutcome.parsed (some 7), false⟩ "my-job"
    true rfl (by decide) rfl

/-- Claim C2: when the listing resolves the definition's name to an existing
job with a truthy identifier and `force_update` is false, `manage_job`
returns that identifier unchanged and the trace holds only the lookup's list
call: zero create calls and zero update calls. (An existing registry job
carries a non-zero `job_id`; listings with a missing or zero `job_id` are
the separate falsy-identifier case.) -/
theorem C2_existing_no_force_is_noop (cfg : Config) (env : Env) (n : String)
    (l : List JobEntry) (id : Nat) (hn : cfg.name = some n) (hne : n ≠ "")
    (hl : env.listing = ListOutcome.jobs l)
    (hfind : find_job_id l n = some id) (hid : id ≠ 0) :
    manage_job cfg env false = (Outcome.ok (some id), [Call.list]) := by
  simp [manage_job, hn, hne, hl, get_existing_job_id, hfind, hid]

/-- Claim C2, witness: registry `{"ingest-daily": 42}`, `forceUpdate=false`
returns `42` with no mutation call. -/
theorem C2_existing_no_force_is_noop_witness :
    manage_job ⟨some "ingest-daily"⟩
        ⟨ListOutcome.jobs [⟨some "ingest-daily", some 42⟩],
          CreateOutcome.parsed none, false⟩ false =
      (Outcome.ok (some 42), [Call.list]) :=
  C2_existing_no_force_is_noop ⟨some "ingest-daily"⟩
    ⟨ListOutcome.jobs [⟨some "ingest-daily", some 42⟩],
      CreateOutcome.parsed none, false⟩
    "ingest-daily" [⟨some "ingest-daily", some 42⟩] 42 rfl (by decide) rfl
    (by decide) (by decide)

/-- Claim C3: when the listing resolves the definition's name to an existing
job with a truthy identifier and `force_update` is true, the trace is
exactly the list call followed by one update call on that identifier — one
update, no create — and when the bridge update command succeeds `manage_job`
returns the identifier resolved at lookup time (`update_job` returns its
`job_id` argument, never a new identifier). -/
theorem C3_existing_force_updates_in_place (cfg : Config) (env : Env)
    (n : String) (l : List JobEntry) (id : Nat) (hn : cfg.name = some n)
    (hne : n ≠ "") (hl : env.listing = ListOutcome.jobs l)
    (hfind : find_job_id l n = some id) (hid : id ≠ 0) :
    (manage_job cfg env true).2 = [Call.list, Call.update id] ∧
    (env.updateFails = false →
      manage_job cfg env true =
        (Outcome.ok (some id), [Call.list, Call.update id])) := by
  cases hu : env.updateFails <;>
    simp [manage_job, hn, hne, hl, get_existing_job_id, hfind, hid,
      update_job, tryFinally, hu]

/-- Claim C3, witness at a concrete input. -/
theorem C3_existing_force_updates_in_place_witness :
    (manage_job ⟨some "ingest-daily"⟩
        ⟨ListOutcome.jobs [⟨some "ingest-daily", some 42⟩],
          CreateOutcome.parsed none, false⟩ true).2 =
      [Call.list, Call.update 42] ∧
    (false = false →
      manage_job ⟨some "ingest-daily"⟩
          ⟨ListOutcome.jobs [⟨some "ingest-daily", some 42⟩],
            CreateOutcome.parsed none, false⟩ true =
        (Outcome.ok (some 42), [Call.list, Call.update 42])) :=
  C3_existing_force_updates_in_place ⟨some "ingest-daily"⟩
    ⟨ListOutcome.jobs [⟨some "ingest-daily", some 42⟩],
      CreateOutcome.parsed none, false⟩
    "ingest-daily" [⟨some "ingest-daily", some 42⟩] 42 rfl (by decide) rfl
    (by decide) (by decide)

/-- Claim C4: with a valid name and a listing containing no job of that name
(in particular the empty registry), `manage_job` issues exactly one create
call and no update call, for `force_update` true and false alike — the
trace is the list call followed by the create call, whatever the create
command's outcome. -/
theorem C4_no_match_always_creates (cfg : Config) (env : Env) (n : String)
    (l : List JobEntry) (force : Bool) (hn : cfg.name = some n)
    (hne : n ≠ "") (hl : env.listing = ListOutcome.jobs l)
    (hnm : ∀ j ∈ l, j.name ≠ some n) :
    (manage_job cfg env force).2 = [Call.list, Call.create] := by
  have hfind : find_job_id l n = none := find_job_id_eq_none_of_no_match l n hnm
  simp only [manage_job, hn, if_neg hne, hl, get_existing_job_id, hfind]
  exact manage_job_create_path_trace env

/-- Claim C4, witness: empty registry, both values of `force_update`. -/
theorem C4_no_match_always_creates_witness :
    (manage_job ⟨some "ingest-daily"⟩
        ⟨ListOutcome.jobs [], CreateOutcome.parsed (some 9), false⟩
        true).2 = [Call.list, Call.create] ∧
    (manage_job ⟨some "ingest-daily"⟩
        ⟨ListOutcome.jobs [], CreateOutcome.parsed (some 9), false⟩
        false).2 = [Call.list, Call.create] :=
  ⟨C4_no_match_always_creates ⟨some "ingest-daily"⟩
      ⟨ListOutcome.jobs [], CreateOutcome.parsed (some 9), false⟩
      "ingest-daily" [] true rfl (by decide) rfl (by decide),
    C4_no_match_always_creates ⟨some "ingest-daily"⟩
      ⟨ListOutcome.jobs [], CreateOutcome.parsed (some 9), false⟩
      "ingest-daily" [] false rfl (by decide) rfl (by decide)⟩

/-- Claim C5: after `update_job` terminates — returning normally or raising
through the failed bridge reset command — the scratch file
`temp_job_config.json` no longer exists: the `finally` block removes it on
every exit path, whatever the initial filesystem state. -/
theorem C5_scratch_file_never_survives (cmdFails : Bool) (job_id : Nat)
    (tempExists0 : Bool) :
    (update_job cmdFails job_id tempExists0).2 = false := by
  cases cmdFails <;> rfl

/-- Claim C6: a configuration whose `name` is absent or empty makes
`manage_job` terminate the process before any bridge call: the trace is
empty — no list, create, update or run call. -/
theorem C6_missing_name_exits_before_any_call (cfg : Config) (env : Env)
    (force : Bool) (h : cfg.name = none ∨ cfg.name = some "") :
    manage_job cfg env force = (Outcome.sysExit, []) := by
  rcases h with h | h <;> simp [manage_job, h]

/-- Claim C6, witness: the empty configuration `{}`. -/
theorem C6_missing_name_exits_before_any_call_witness :
    manage_job ⟨none⟩
        ⟨ListOutcome.jobs [], CreateOutcome.parsed none, false⟩ false =
      (Outcome.sysExit, []) :=
  C6_missing_name_exits_before_any_call ⟨none⟩
    ⟨ListOutcome.jobs [], CreateOutcome.parsed none, false⟩ false (Or.inl rfl)

/-- Claim C7: the lookup resolves the identifier by exact string equality of
`settings.name` against the definition's name, and returns the `job_id` of
the first matching entry in listing order; entries after the first match —
duplicates of the same name included — are neither consulted, deduplicated
nor reported as an error. -/
theorem C7_first_match_wins (l1 : List JobEntry) (j : JobEntry)
    (l2 : List JobEntry) (n : String) (hj : j.name = some n)
    (h1 : ∀ k ∈ l1, k.name ≠ some n) :
    get_existing_job_id (ListOutcome.jobs (l1 ++ j :: l2)) n =
      Outcome.ok j.job_id := by
  simp only [get_existing_job_id]
  exact congrArg Outcome.ok (find_job_id_append_first l1 j l2 n hj h1)

/-- Claim C7, witness: a listing with two jobs named `a` (identifiers 1 and
2) resolves to the first, identifier 1, with no error. -/
theorem C7_first_match_wins_witness :
    get_existing_job_id
        (ListOutcome.jobs
          ([⟨some "b", some 5⟩] ++
            (⟨some "a", some 1⟩ : JobEntry) :: [⟨some "a", some 2⟩])) "a" =
      Outcome.ok (some 1) :=
  C7_first_match_wins [⟨some "b", some 5⟩] ⟨some "a", some 1⟩
    [⟨some "a", some 2⟩] "a" rfl (by decide)

/-- Claim C8, counterexample: for a host value with a trailing slash the
displayed URL is not the host followed by `/#job/` and the identifier —
`get_job_url` first strips trailing slashes from the host. -/
theorem C8_counterexample :
    get_job_url "https://dbc.example.com/" (some 42) ≠
      some ("https://dbc.example.com/" ++ "/#job/" ++ toString 42) ∧
    get_job_url "https://dbc.example.com/" (some 42) =
      some "https://dbc.example.com/#job/42" := by
  constructor
  · decide
  · decide

/-- Claim C8 (amended): for every non-empty host and truthy identifier, the
displayed job URL is the host with its trailing slashes removed, followed by
`/#job/` and the identifier; and the run URL printed after a triggered run
is that job URL followed by `/runs/` and the run identifier. -/
theorem C8_url_shapes (host : String) (id rid : Nat) (hh : host ≠ "")
    (hid : id ≠ 0) :
    get_job_url host (some id) =
      some (rstripSlashes host ++ "/#job/" ++ toString id) ∧
    run_url (rstripSlashes host ++ "/#job/" ++ toString id) (some rid) =
      rstripSlashes host ++ "/#job/" ++ toString id ++ "/runs/" ++
        toString rid := by
  constructor
  · simp [get_job_url, hh, hid]
  · rfl

/-- Claim C8, witness for the amended theorem at a concrete host and ids. -/
theorem C8_url_shapes_witness :
    get_job_url "https://dbc.example.com" (some 42) =
      some (rstripSlashes "https://dbc.example.com" ++ "/#job/" ++
        toString 42) ∧
    run_url (rstripSlashes "https://dbc.example.com" ++ "/#job/" ++
        toString 42) (some 7) =
      rstripSlashes "https://dbc.example.com" ++ "/#job/" ++ toString 42 ++
        "/runs/" ++ toString 7 :=
  C8_url_shapes "https://dbc.example.com" 42 7 (by decide) (by decide)

/-- Claim C9: when the first listing entry carrying the definition's name
has a missing `job_id` or `job_id` 0, the lookup's result is falsy, so
`manage_job` takes the create path — one create call, no update — although a
job with that name is present in the listing, for either value of
`force_update`. -/
theorem C9_falsy_id_falls_to_create (cfg : Config) (env : Env) (n : String)
    (l1 : List JobEntry) (j : JobEntry) (l2 : List JobEntry) (force : Bool)
    (hn : cfg.name = some n) (hne : n ≠ "")
    (hl : env.listing = ListOutcome.jobs (l1 ++ j :: l2))
    (hj : j.name = some n) (h1 : ∀ k ∈ l1, k.name ≠ some n)
    (hid : j.job_id = none ∨ j.job_id = some 0) :
    (manage_job cfg env force).2 = [Call.list, Call.create] := by
  have hfind : find_job_id (l1 ++ j :: l2) n = j.job_id :=
    find_job_id_append_first l1 j l2 n hj h1
  rcases hid with hid | hid <;>
    · simp only [manage_job, hn, if_neg hne, hl, get_existing_job_id, hfind,
        hid, ne_eq, not_true_eq_false, if_false, ite_self]
      exact manage_job_create_path_trace env

/-- Claim C9, witness: a listing whose only entry is named `a` but has no
`job_id` still leads to a create call. -/
theorem C9_falsy_id_falls_to_create_witness :
    (manage_job ⟨some "a"⟩
        ⟨ListOutcome.jobs ([] ++ (⟨some "a", none⟩ : JobEntry) :: []),
          CreateOutcome.parsed (some 3), false⟩ false).2 =
      [Call.list, Call.create] :=
  C9_falsy_id_falls_to_create ⟨some "a"⟩
    ⟨ListOutcome.jobs ([] ++ (⟨some "a", none⟩ : JobEntry) :: []),
      CreateOutcome.parsed (some 3), false⟩
    "a" [] ⟨some "a", none⟩ [] false rfl (by decide) rfl rfl (by decide)
    (Or.inl rfl)

/-- Claim C10: when the create command exits zero but prints unparseable
output, `create_job` returns `None` instead of failing, `manage_job`
completes successfully with no identifier, and `get_job_url` yields no URL
for any host because a truthy identifier is required. -/
theorem C10_unparseable_create_output (cfg : Config) (env : Env) (n : String)
    (l : List JobEntry) (force : Bool) (hn : cfg.name = some n) (hne : n ≠ "")
    (hl : env.listing = ListOutcome.jobs l) (hfind : find_job_id l n = none)
    (hc : env.createResult = CreateOutcome.badOutput) :
    create_job env.createResult = Outcome.ok none ∧
    manage_job cfg env force = (Outcome.ok none, [Call.list, Call.create]) ∧
    ∀ host : String, get_job_url host none = none := by
  refine ⟨by simp [hc, create_job], ?_, fun host => rfl⟩
  simp [manage_job, hn, hne, hl, get_existing_job_id, hfind,
    manage_job_create_path, hc, create_job]

/-- Claim C10, witness at a concrete input. -/
theorem C10_unparseable_create_output_witness :
    create_job (Env.createResult
        ⟨ListOutcome.jobs [], CreateOutcome.badOutput, false⟩) =
      Outcome.ok none ∧
    manage_job ⟨some "a"⟩
        ⟨ListOutcome.jobs [], CreateOutcome.badOutput, false⟩ false =
      (Outcome.ok none, [Call.list, Call.create]) ∧
    ∀ host : String, get_job_url host none = none :=
  C10_unparseable_create_output ⟨some "a"⟩
    ⟨ListOutcome.jobs [], CreateOutcome.badOutput, false⟩ "a" [] false rfl
    (by decide) rfl rfl rfl

end ManageDatabricksJob
